import Mathlib

/-!
Shallow embedding of the `dependency_provider` crate.

The crate has two source files:

* `src/lib.rs` defines `ProviderFunction<T>` (a boxed zero-argument factory
  closure), the type-keyed heterogeneous map `DependencyProvider` built on
  `typemap::ShareMap` (a `HashMap` keyed by `TypeId` holding type-erased
  boxes), and its operations `new`, `register`, `register_default`,
  `unregister`, `get`, plus `Default`.
* `src/global_provider.rs` defines the global holder
  `GLOBAL_PROVIDER : RwLock<Option<DependencyProvider>>` (initially `None`),
  `init` (replaces the held map wholesale), `get_dependency` (panics with a
  fixed message when the holder is `None`, otherwise delegates to the map),
  and the `inject!` macro (panics when `get_dependency` returns `None`).

Embedding choices:

* Rust type identity is abstracted by a parameter `TypeId` with decidable
  equality, and the value type stored for each key by `Val : TypeId → Type`.
  The dependent typing mirrors the crate's by-construction type safety: the
  factory registered at key `k` produces values of type `Val k` and `get k`
  can only return `Option (Val k)`.
* Factory closures are `Fn() -> T` values that may capture shared mutable
  state (interior mutability); invoking one may read and update that shared
  state.  We model a factory as a state transformer `σ → α × σ` over an
  explicit world `σ`; a pure factory is `fun s => (v, s)`.
* `typemap`'s `HashMap` is modelled as an association list with at most one
  entry per key: insertion filters out the old entry for the key.
* Panics are modelled as `Except.error` carrying the panic message.
-/

/-- Embedding of `ProviderFunction<T>` from `src/lib.rs`: a wrapped factory
closure `Box<dyn Fn() -> T + Send + Sync>`, modelled as a state transformer
over the world `σ` so that closures capturing shared mutable state can be
expressed. -/
structure ProviderFunction (σ α : Type) where
  f : σ → α × σ

/-- Embedding of `ProviderFunction::new`: wrap the factory. -/
def ProviderFunction.new {σ α : Type} (g : σ → α × σ) : ProviderFunction σ α :=
  ⟨g⟩

/-- Embedding of `ProviderFunction::call`: invoke the wrapped factory,
producing a fresh value (and the updated shared world). -/
def ProviderFunction.call {σ α : Type} (p : ProviderFunction σ α) (s : σ) : α × σ :=
  p.f s

/-- One type-erased entry of the `typemap`: a key (the `TypeId` of the Rust
type `T`) together with the provider function for that key's value type. -/
abbrev ProviderEntry (TypeId : Type) (Val : TypeId → Type) (σ : Type) : Type :=
  Sigma fun k : TypeId => ProviderFunction σ (Val k)

/-- Embedding of `DependencyProvider` from `src/lib.rs`: the field
`providers : ShareMap` is a map keyed by type identity; we model it as an
association list holding at most one entry per key. -/
structure DependencyProvider (TypeId : Type) (Val : TypeId → Type) (σ : Type) where
  providers : List (ProviderEntry TypeId Val σ)

variable {TypeId : Type} [DecidableEq TypeId] {Val : TypeId → Type} {σ : Type}

/-- Lookup of the entry for key `k`, embedding `ShareMap::get::<Depenency<T>>`:
the first (and, by the insertion discipline, only) entry whose key equals `k`.
The stored provider is returned at type `ProviderFunction σ (Val k)` via the
key equality, mirroring the checked downcast that cannot fail. -/
def lookupProvider : List (ProviderEntry TypeId Val σ) → (k : TypeId) →
    Option (ProviderFunction σ (Val k))
  | [], _ => none
  | ⟨k', pf⟩ :: rest, k =>
    if h : k' = k then some (h ▸ pf) else lookupProvider rest k

/-- Embedding of `DependencyProvider::new`: the empty map. -/
def DependencyProvider.new : DependencyProvider TypeId Val σ :=
  ⟨[]⟩

/-- Embedding of `DependencyProvider::register`: consume `self`, insert or
replace the single slot for the key, and return `self` for chaining.
`HashMap` insertion replaces: we drop any previous entry for the key. -/
def DependencyProvider.register (d : DependencyProvider TypeId Val σ) (k : TypeId)
    (g : σ → Val k × σ) : DependencyProvider TypeId Val σ :=
  ⟨⟨k, ProviderFunction.new g⟩ :: d.providers.filter fun e => decide (e.1 ≠ k)⟩

/-- Embedding of `DependencyProvider::register_default`: register the type's
`Default::default` constructor (a pure factory) as the provider. -/
def DependencyProvider.register_default (d : DependencyProvider TypeId Val σ)
    (k : TypeId) [Inhabited (Val k)] : DependencyProvider TypeId Val σ :=
  d.register k fun s => (default, s)

/-- Embedding of `DependencyProvider::unregister`: remove the slot for the
key if present (`ShareMap::remove`); the result of `remove` is discarded. -/
def DependencyProvider.unregister (d : DependencyProvider TypeId Val σ)
    (k : TypeId) : DependencyProvider TypeId Val σ :=
  ⟨d.providers.filter fun e => decide (e.1 ≠ k)⟩

/-- Embedding of `DependencyProvider::get`:
`self.providers.get::<Depenency<T>>().map(|f| f.call())` — look up the slot;
if present invoke its factory on the current world and return the produced
value, otherwise return `none` with the world untouched. -/
def DependencyProvider.get (d : DependencyProvider TypeId Val σ) (k : TypeId)
    (s : σ) : Option (Val k) × σ :=
  match lookupProvider d.providers k with
  | none => (none, s)
  | some pf => (some (pf.call s).1, (pf.call s).2)

/-- Embedding of `impl Default for DependencyProvider`: `Self::new()`. -/
def DependencyProvider.default : DependencyProvider TypeId Val σ :=
  DependencyProvider.new

/-- Embedding of the initial state of `GLOBAL_PROVIDER` from
`src/global_provider.rs`: `RwLock::new(None)` — no map installed.  The
sequentialised global state is the `Option` behind the lock. -/
def initialGlobalProvider : Option (DependencyProvider TypeId Val σ) :=
  none

/-- Embedding of `global_provider::init`:
`(*GLOBAL_PROVIDER.write().unwrap()).replace(provider)` — install the map,
replacing whatever was held before (the returned previous value is ignored). -/
def init (_g : Option (DependencyProvider TypeId Val σ))
    (m : DependencyProvider TypeId Val σ) : Option (DependencyProvider TypeId Val σ) :=
  some m

/-- Embedding of `global_provider::get_dependency`: panic with the fixed
message if the holder is `None`, otherwise delegate to the installed map's
`get`.  A panic is modelled as `Except.error` carrying the message. -/
def get_dependency (g : Option (DependencyProvider TypeId Val σ)) (k : TypeId)
    (s : σ) : Except String (Option (Val k) × σ) :=
  match g with
  | none => Except.error "tried to use global dependency provider without calling init()"
  | some d => Except.ok (d.get k s)

/-- Embedding of the `inject!` macro (both the immutable and the mutable
variant expand to the same computation): call `get_dependency::<$t>()` and
`expect` the result.  The `expect` message in the source is the string
literal given here verbatim; `macro_rules!` does not substitute `$t` inside
a string literal, so the message is this exact constant for every type. -/
def inject (g : Option (DependencyProvider TypeId Val σ)) (k : TypeId)
    (s : σ) : Except String (Val k × σ) :=
  match get_dependency g k s with
  | Except.error e => Except.error e
  | Except.ok (none, _) =>
      Except.error "No provider function registered for dependency $t"
  | Except.ok (some v, s') => Except.ok (v, s')

/-! ## Basic lemmas about lookup, register and unregister -/

theorem lookupProvider_cons_self (k : TypeId) (pf : ProviderFunction σ (Val k))
    (l : List (ProviderEntry TypeId Val σ)) :
    lookupProvider (⟨k, pf⟩ :: l) k = some pf := by
  simp [lookupProvider]

theorem lookupProvider_cons_ne {k k' : TypeId} (h : k' ≠ k)
    (pf : ProviderFunction σ (Val k')) (l : List (ProviderEntry TypeId Val σ)) :
    lookupProvider (⟨k', pf⟩ :: l) k = lookupProvider l k := by
  simp [lookupProvider, h]

theorem lookupProvider_filter_ne {k k' : TypeId} (h : k' ≠ k)
    (l : List (ProviderEntry TypeId Val σ)) :
    lookupProvider (l.filter fun e => decide (e.1 ≠ k)) k' = lookupProvider l k' := by
  induction l with
  | nil => rfl
  | cons e rest ih =>
    obtain ⟨ke, pfe⟩ := e
    by_cases hk : ke = k
    · have hke : ke ≠ k' := by rw [hk]; exact fun hh => h hh.symm
      rw [List.filter_cons_of_neg (by simp [hk]), lookupProvider_cons_ne hke pfe rest]
      exact ih
    · rw [List.filter_cons_of_pos (by simp [hk])]
      by_cases hk' : ke = k'
      · subst hk'
        rw [lookupProvider_cons_self, lookupProvider_cons_self]
      · rw [lookupProvider_cons_ne hk' pfe _, lookupProvider_cons_ne hk' pfe rest]
        exact ih

theorem lookupProvider_filter_self (k : TypeId)
    (l : List (ProviderEntry TypeId Val σ)) :
    lookupProvider (l.filter fun e => decide (e.1 ≠ k)) k = none := by
  induction l with
  | nil => rfl
  | cons e rest ih =>
    obtain ⟨ke, pfe⟩ := e
    by_cases hk : ke = k
    · rw [List.filter_cons_of_neg (by simp [hk])]
      exact ih
    · rw [List.filter_cons_of_pos (by simp [hk]), lookupProvider_cons_ne hk pfe _]
      exact ih

theorem filter_eq_self_of_lookup_none {k : TypeId}
    {l : List (ProviderEntry TypeId Val σ)} (h : lookupProvider l k = none) :
    (l.filter fun e => decide (e.1 ≠ k)) = l := by
  induction l with
  | nil => rfl
  | cons e rest ih =>
    obtain ⟨ke, pfe⟩ := e
    by_cases hk : ke = k
    · exfalso
      subst hk
      rw [lookupProvider_cons_self] at h
      exact Option.noConfusion h
    · rw [lookupProvider_cons_ne hk pfe rest] at h
      rw [List.filter_cons_of_pos (by simp [hk]), ih h]

theorem countP_filter_ne_eq_zero (k : TypeId)
    (l : List (ProviderEntry TypeId Val σ)) :
    (l.filter fun e => decide (e.1 ≠ k)).countP (fun e => decide (e.1 = k)) = 0 := by
  induction l with
  | nil => rfl
  | cons e rest ih =>
    obtain ⟨ke, pfe⟩ := e
    by_cases hk : ke = k
    · rw [List.filter_cons_of_neg (by simp [hk])]
      exact ih
    · rw [List.filter_cons_of_pos (by simp [hk]),
        List.countP_cons_of_neg _ _ (by simp [hk])]
      exact ih

theorem lookupProvider_register_self (d : DependencyProvider TypeId Val σ)
    (k : TypeId) (g : σ → Val k × σ) :
    lookupProvider (d.register k g).providers k = some (ProviderFunction.new g) := by
  simp [DependencyProvider.register, lookupProvider_cons_self]

theorem lookupProvider_register_ne (d : DependencyProvider TypeId Val σ)
    {k k' : TypeId} (g : σ → Val k × σ) (h : k' ≠ k) :
    lookupProvider (d.register k g).providers k' = lookupProvider d.providers k' := by
  rw [DependencyProvider.register]
  rw [show (⟨⟨k, ProviderFunction.new g⟩ :: d.providers.filter fun e => decide (e.1 ≠ k)⟩ :
      DependencyProvider TypeId Val σ).providers
    = ⟨k, ProviderFunction.new g⟩ :: (d.providers.filter fun e => decide (e.1 ≠ k)) from rfl]
  rw [lookupProvider_cons_ne (fun hh => h hh.symm), lookupProvider_filter_ne h]

theorem get_eq_of_lookup_some {d : DependencyProvider TypeId Val σ} {k : TypeId}
    {pf : ProviderFunction σ (Val k)} (h : lookupProvider d.providers k = some pf)
    (s : σ) : d.get k s = (some (pf.call s).1, (pf.call s).2) := by
  simp [DependencyProvider.get, h]

theorem get_eq_of_lookup_none {d : DependencyProvider TypeId Val σ} {k : TypeId}
    (h : lookupProvider d.providers k = none) (s : σ) : d.get k s = (none, s) := by
  simp [DependencyProvider.get, h]

/-- Congruence for `get`: maps with the same slot for a key behave the same
on that key. -/
theorem get_congr_of_lookup_eq {d1 d2 : DependencyProvider TypeId Val σ}
    {k : TypeId} (h : lookupProvider d1.providers k = lookupProvider d2.providers k)
    (s : σ) : d1.get k s = d2.get k s := by
  simp only [DependencyProvider.get, h]

/-! ## Claim theorems -/

/-- C1: Type isolation of the map.  On top of an arbitrary map with no
registration for `C`, registering distinct types `A` and `B` independently
makes `get A` return exactly what `A`'s registered factory produces and
`get B` what `B`'s factory produces, while `get C` returns `none` (never a
panic), no matter how many other types are registered in `d`.  Type safety
is by construction: `get A` has return type `Option (Val A)`. -/
theorem type_isolation (d : DependencyProvider TypeId Val σ) (A B C : TypeId)
    (fA : σ → Val A × σ) (fB : σ → Val B × σ) (sA sB sC : σ)
    (hAB : A ≠ B) (hCA : C ≠ A) (hCB : C ≠ B)
    (hC : lookupProvider d.providers C = none) :
    ((d.register A fA).register B fB).get A sA = (some (fA sA).1, (fA sA).2)
    ∧ ((d.register A fA).register B fB).get B sB = (some (fB sB).1, (fB sB).2)
    ∧ ((d.register A fA).register B fB).get C sC = (none, sC) := by
  have hA : lookupProvider ((d.register A fA).register B fB).providers A
      = some (ProviderFunction.new fA) := by
    rw [lookupProvider_register_ne (d.register A fA) fB hAB]
    exact lookupProvider_register_self d A fA
  have hB := lookupProvider_register_self (d.register A fA) B fB
  have hCn : lookupProvider ((d.register A fA).register B fB).providers C = none := by
    rw [lookupProvider_register_ne (d.register A fA) fB hCB,
      lookupProvider_register_ne d fA hCA]
    exact hC
  exact ⟨get_eq_of_lookup_some hA sA, get_eq_of_lookup_some hB sB,
    get_eq_of_lookup_none hCn sC⟩

/-- Witness for C1 at a concrete instance: keys 0, 1, 2 standing for the
types A, B, C, with factories producing 10 and 20. -/
theorem type_isolation_witness :
    (((DependencyProvider.new : DependencyProvider Nat (fun _ => Nat) Unit).register 0
        (fun s => (10, s))).register 1 (fun s => (20, s))).get 0 () = (some 10, ())
    ∧ (((DependencyProvider.new : DependencyProvider Nat (fun _ => Nat) Unit).register 0
        (fun s => (10, s))).register 1 (fun s => (20, s))).get 1 () = (some 20, ())
    ∧ (((DependencyProvider.new : DependencyProvider Nat (fun _ => Nat) Unit).register 0
        (fun s => (10, s))).register 1 (fun s => (20, s))).get 2 () = (none, ()) :=
  type_isolation DependencyProvider.new 0 1 2 (fun s => (10, s)) (fun s => (20, s))
    () () () (by decide) (by decide) (by decide) rfl

/-- C2: Registration precedence (last-write-wins).  After registering `f1`
then `f2` for the same type `T` on any map, `get T` invokes exactly `f2`
(the slot for `T` holds `f2` and nothing else), and no duplicate entry for
`T` exists: the map has exactly one entry keyed by `T`. -/
theorem registration_precedence (d : DependencyProvider TypeId Val σ) (T : TypeId)
    (f1 f2 : σ → Val T × σ) (s : σ) :
    ((d.register T f1).register T f2).get T s = (some (f2 s).1, (f2 s).2)
    ∧ lookupProvider ((d.register T f1).register T f2).providers T
        = some (ProviderFunction.new f2)
    ∧ ((d.register T f1).register T f2).providers.countP
        (fun e => decide (e.1 = T)) = 1 := by
  have hl := lookupProvider_register_self (d.register T f1) T f2
  refine ⟨get_eq_of_lookup_some hl s, hl, ?_⟩
  have hp : ((d.register T f1).register T f2).providers
      = ⟨T, ProviderFunction.new f2⟩ ::
        ((d.register T f1).providers.filter fun e => decide (e.1 ≠ T)) := rfl
  rw [hp, List.countP_cons_of_pos _ _ (by simp), countP_filter_ne_eq_zero]

/-- C3: Use-before-init is fatal.  With the global holder in its initial,
never-initialized state, `get_dependency` for every type panics with exactly
the message from the source. -/
theorem use_before_init_panics (k : TypeId) (s : σ) :
    get_dependency (initialGlobalProvider : Option (DependencyProvider TypeId Val σ)) k s
      = Except.error "tried to use global dependency provider without calling init()" :=
  rfl

/-- C4: Global init/get round trip.  After `init g m` (from any previous
global state `g`), `get_dependency` returns exactly what `m.get` returns:
the registered factory's product when the type is registered in `m`, and
`none` when it is not. -/
theorem global_init_get_round_trip (g : Option (DependencyProvider TypeId Val σ))
    (m : DependencyProvider TypeId Val σ) (k k' : TypeId)
    (pf : ProviderFunction σ (Val k)) (s s' : σ)
    (hreg : lookupProvider m.providers k = some pf)
    (habs : lookupProvider m.providers k' = none) :
    get_dependency (init g m) k s = Except.ok (some (pf.call s).1, (pf.call s).2)
    ∧ get_dependency (init g m) k' s' = Except.ok (none, s')
    ∧ ∀ (k'' : TypeId) (s'' : σ),
        get_dependency (init g m) k'' s'' = Except.ok (m.get k'' s'') := by
  refine ⟨?_, ?_, fun k'' s'' => rfl⟩
  · show Except.ok (m.get k s) = _
    rw [get_eq_of_lookup_some hreg]
  · show Except.ok (m.get k' s') = _
    rw [get_eq_of_lookup_none habs]

/-- Witness for C4: a never-initialized previous state, a map with key 0
registered to a factory producing 7, and unregistered key 1. -/
theorem global_init_get_round_trip_witness :
    get_dependency (init none ((DependencyProvider.new :
        DependencyProvider Nat (fun _ => Nat) Unit).register 0 (fun s => (7, s)))) 0 ()
      = Except.ok (some 7, ())
    ∧ get_dependency (init none ((DependencyProvider.new :
        DependencyProvider Nat (fun _ => Nat) Unit).register 0 (fun s => (7, s)))) 1 ()
      = Except.ok (none, ())
    ∧ ∀ (k'' : Nat) (s'' : Unit),
        get_dependency (init none ((DependencyProvider.new :
            DependencyProvider Nat (fun _ => Nat) Unit).register 0 (fun s => (7, s)))) k'' s''
          = Except.ok (((DependencyProvider.new :
              DependencyProvider Nat (fun _ => Nat) Unit).register 0
                (fun s => (7, s))).get k'' s'') :=
  global_init_get_round_trip none
    ((DependencyProvider.new : DependencyProvider Nat (fun _ => Nat) Unit).register 0
      (fun s => (7, s)))
    0 1 (ProviderFunction.new fun s => (7, s)) () () rfl rfl

/-- C5: Fresh invocation per call (no caching).  Every `get` on a map whose
slot for `k` holds the provider `pf` invokes `pf` on the current world:
the result is the factory's product on this very call, and the world is
updated by this invocation — the factory is re-run, nothing is cached. -/
theorem fresh_invocation_per_call (d : DependencyProvider TypeId Val σ)
    (k : TypeId) (pf : ProviderFunction σ (Val k)) (s : σ)
    (h : lookupProvider d.providers k = some pf) :
    d.get k s = (some (pf.call s).1, (pf.call s).2) :=
  get_eq_of_lookup_some h s

/-- Concrete map for the shared-counter scenario of the `shared_ref` test:
the world is (shared counter, number of factory invocations); the factory
returns a handle (modelled as `Unit`) to the shared counter and its
invocation is recorded in the second component. -/
def sharedCounterProvider : DependencyProvider Nat (fun _ => Unit) (Nat × Nat) :=
  DependencyProvider.new.register 0 fun s => ((), (s.1, s.2 + 1))

/-- Fetch the handle from `sharedCounterProvider` via `get`, then increment
the shared counter through the fetched handle. -/
def fetchAndIncrement (s : Nat × Nat) : Nat × Nat :=
  match sharedCounterProvider.get 0 s with
  | (some _, s') => (s'.1 + 1, s'.2)
  | (none, s') => s'

/-- Witness for C5: a single `get` runs the factory (the invocation count
moves from 0 to 1), and fetching-and-incrementing twice from counter 0
leaves the shared counter at 2 with the factory invoked twice. -/
theorem fresh_invocation_per_call_witness :
    sharedCounterProvider.get 0 (0, 0) = (some (), (0, 1))
    ∧ fetchAndIncrement (fetchAndIncrement (0, 0)) = (2, 2) :=
  ⟨fresh_invocation_per_call sharedCounterProvider 0
      (ProviderFunction.new fun s => ((), (s.1, s.2 + 1))) (0, 0) rfl,
    rfl⟩

/-- C6: Unregister idempotence and frame.  Unregistering a type `T` that is
absent from `d` leaves `d` literally unchanged (no error, no panic).  On any
map `e`, after unregistering `T`, `get T` returns `none`, while `get U` for
every other type `U` is unaffected. -/
theorem unregister_idempotent_frame (d e : DependencyProvider TypeId Val σ)
    (T U : TypeId) (s sU : σ) (hU : U ≠ T)
    (habs : lookupProvider d.providers T = none) :
    d.unregister T = d
    ∧ (e.unregister T).get T s = (none, s)
    ∧ (e.unregister T).get U sU = e.get U sU := by
  refine ⟨?_, ?_, ?_⟩
  · show (⟨d.providers.filter fun x => decide (x.1 ≠ T)⟩ :
      DependencyProvider TypeId Val σ) = d
    rw [filter_eq_self_of_lookup_none habs]
  · exact get_eq_of_lookup_none (lookupProvider_filter_self T e.providers) s
  · exact get_congr_of_lookup_eq (lookupProvider_filter_ne hU e.providers) sU

/-- Witness for C6: key 0 absent from the first map; the second map has
keys 0 and 1 registered, key 0 is unregistered and key 1 survives. -/
theorem unregister_idempotent_frame_witness :
    ((DependencyProvider.new : DependencyProvider Nat (fun _ => Nat) Unit).register 1
        (fun s => (11, s))).unregister 0
      = (DependencyProvider.new : DependencyProvider Nat (fun _ => Nat) Unit).register 1
        (fun s => (11, s))
    ∧ ((((DependencyProvider.new : DependencyProvider Nat (fun _ => Nat) Unit).register 0
        (fun s => (5, s))).register 1 (fun s => (11, s))).unregister 0).get 0 ()
      = (none, ())
    ∧ ((((DependencyProvider.new : DependencyProvider Nat (fun _ => Nat) Unit).register 0
        (fun s => (5, s))).register 1 (fun s => (11, s))).unregister 0).get 1 ()
      = (((DependencyProvider.new : DependencyProvider Nat (fun _ => Nat) Unit).register 0
        (fun s => (5, s))).register 1 (fun s => (11, s))).get 1 () :=
  unregister_idempotent_frame
    ((DependencyProvider.new : DependencyProvider Nat (fun _ => Nat) Unit).register 1
      (fun s => (11, s)))
    (((DependencyProvider.new : DependencyProvider Nat (fun _ => Nat) Unit).register 0
      (fun s => (5, s))).register 1 (fun s => (11, s)))
    0 1 () () (by decide) rfl

/-- C7: Re-init replaces wholesale.  Calling `init` twice installs the
second map entirely: after `init` with `m1` and then with `m2`, every
`get_dependency` is determined solely by `m2`; in particular a type
registered in `m1` but absent from `m2` yields `none` (no merging). -/
theorem re_init_replaces_wholesale (g : Option (DependencyProvider TypeId Val σ))
    (m1 m2 : DependencyProvider TypeId Val σ) (k : TypeId)
    (pf : ProviderFunction σ (Val k)) (s : σ)
    (_h1 : lookupProvider m1.providers k = some pf)
    (h2 : lookupProvider m2.providers k = none) :
    get_dependency (init (init g m1) m2) k s = Except.ok (none, s)
    ∧ ∀ (k' : TypeId) (s' : σ),
        get_dependency (init (init g m1) m2) k' s' = Except.ok (m2.get k' s') := by
  refine ⟨?_, fun k' s' => rfl⟩
  show Except.ok (m2.get k s) = _
  rw [get_eq_of_lookup_none h2]

/-- Witness for C7: key 0 registered in the first map, absent from the
second (empty) map; after the second `init` it yields `none`. -/
theorem re_init_replaces_wholesale_witness :
    get_dependency (init (init none ((DependencyProvider.new :
        DependencyProvider Nat (fun _ => Nat) Unit).register 0 (fun s => (7, s))))
        DependencyProvider.new) 0 ()
      = Except.ok (none, ())
    ∧ ∀ (k' : Nat) (s' : Unit),
        get_dependency (init (init none ((DependencyProvider.new :
            DependencyProvider Nat (fun _ => Nat) Unit).register 0 (fun s => (7, s))))
            DependencyProvider.new) k' s'
          = Except.ok ((DependencyProvider.new :
              DependencyProvider Nat (fun _ => Nat) Unit).get k' s') :=
  re_init_replaces_wholesale none
    ((DependencyProvider.new : DependencyProvider Nat (fun _ => Nat) Unit).register 0
      (fun s => (7, s)))
    DependencyProvider.new 0 (ProviderFunction.new fun s => (7, s)) () rfl rfl

/-- C8: the injection helper's missing-registration panic message does not
name the missing type.  With the global holder initialized to the empty map,
`inject` fails for every type with the one fixed message
"No provider function registered for dependency $t" — the `$t` placeholder
is not substituted by `macro_rules!` inside a string literal, so two
distinct types produce the identical message, and the message is distinct
from the never-initialized one. -/
theorem inject_missing_message_constant :
    (∀ (k : Nat) (s : Nat),
      inject (init none (DependencyProvider.new :
          DependencyProvider Nat (fun _ => Nat) Nat)) k s
        = Except.error "No provider function registered for dependency $t")
    ∧ inject (init none (DependencyProvider.new :
          DependencyProvider Nat (fun _ => Nat) Nat)) 0 0
      = inject (init none (DependencyProvider.new :
          DependencyProvider Nat (fun _ => Nat) Nat)) 1 0
    ∧ "No provider function registered for dependency $t"
      ≠ "tried to use global dependency provider without calling init()" :=
  ⟨fun _ _ => rfl, rfl, by decide⟩

/-- C10: Default is the empty map.  `DependencyProvider::default()` is
exactly `DependencyProvider::new()`, and `get` on it returns `none` for
every type. -/
theorem default_is_empty_map :
    (DependencyProvider.default : DependencyProvider TypeId Val σ)
      = DependencyProvider.new
    ∧ ∀ (k : TypeId) (s : σ),
        (DependencyProvider.default : DependencyProvider TypeId Val σ).get k s
          = (none, s) :=
  ⟨rfl, fun _ _ => rfl⟩
